import Mathlib

/-!
Verification development for the Teleshit repository: a Telegram
join-request verification bot served through Flask
(src/telegram_flask_verification_bot.py) together with a one-shot
webhook registration utility (src/set_webhook.py).

The development shallowly embeds the Python handlers as pure Lean
functions.  The process-global dictionary `pending_join_requests` is
embedded as an association list with Python-dict semantics
(assignment overwrites in place, `pop`/`del` remove the entry).
Outbound Telegram calls can fail at runtime; each handler therefore
takes boolean parameters that say whether a given outbound call
succeeds, and returns the messages and API calls it performed so that
the claims can talk about them.
-/

namespace TeleVerify

/-- Chat data carried by a join request (chat.id and chat.title in the source). -/
structure Chat where
  id : Nat
  title : String
deriving DecidableEq, Repr

/-- User profile fields used by the handlers (id, first_name, last_name, username). -/
structure UserProfile where
  id : Nat
  first_name : String
  last_name : Option String
  username : Option String
deriving DecidableEq, Repr

/-- Telegram user.full_name: first_name, plus a space and last_name when present. -/
def UserProfile.full_name (u : UserProfile) : String :=
  match u.last_name with
  | some l => u.first_name ++ " " ++ l
  | none => u.first_name

/-- A chat join request object: the requesting user and the target chat.
The stored object is itself the handle later used for approval. -/
structure ChatJoinRequest where
  from_user : UserProfile
  chat : Chat
deriving DecidableEq, Repr

/-- Contact payload of a contact-share message: phone_number and user_id (owner). -/
structure Contact where
  phone_number : String
  user_id : Nat
deriving DecidableEq, Repr

/-- The pending_join_requests dictionary, keyed by requesting user id. -/
abbrev PendingTable := List (Nat × ChatJoinRequest)

/-- Python dict assignment d[k] = v: overwrite the entry in place when the key
is present, otherwise append a new entry at the end. -/
def dictSet : PendingTable → Nat → ChatJoinRequest → PendingTable
  | [], k, v => [(k, v)]
  | p :: rest, k, v => if p.1 = k then (k, v) :: rest else p :: dictSet rest k v

/-- Python dict lookup d.get(k): the value stored at the key, when present. -/
def dictGetOpt : PendingTable → Nat → Option ChatJoinRequest
  | [], _ => none
  | p :: rest, k => if p.1 = k then some p.2 else dictGetOpt rest k

/-- Python dict removal (del d[k] and the removal part of d.pop(k)). -/
def dictDel : PendingTable → Nat → PendingTable
  | [], _ => []
  | p :: rest, k => if p.1 = k then rest else p :: dictDel rest k

/-- Python membership test k in d. -/
def dictContainsKey (t : PendingTable) (k : Nat) : Bool :=
  (dictGetOpt t k).isSome

/-- Number of entries stored under a key. -/
def countKey (t : PendingTable) (k : Nat) : Nat :=
  (t.map Prod.fst).count k

/-- The keys of the table are pairwise distinct, as in a Python dict. -/
def KeysNodup (t : PendingTable) : Prop :=
  (t.map Prod.fst).Nodup

instance (t : PendingTable) : Decidable (KeysNodup t) := by
  unfold KeysNodup; infer_instance

/-- Reply-keyboard button (KeyboardButton in the source). -/
structure KeyboardButton where
  text : String
  request_contact : Bool
deriving DecidableEq, Repr

/-- Reply keyboard (ReplyKeyboardMarkup in the source). -/
structure ReplyKeyboardMarkup where
  keyboard : List (List KeyboardButton)
  one_time_keyboard : Bool
  resize_keyboard : Bool
deriving DecidableEq, Repr

/-- Reply markup attached to an outgoing message: nothing, a reply keyboard,
or ReplyKeyboardRemove. -/
inductive Markup where
  | noMarkup
  | keyboard (m : ReplyKeyboardMarkup)
  | removeKeyboard
deriving DecidableEq, Repr

/-- The single-button verification keyboard built in handle_join_request and
re-offered on invalid contacts: one KeyboardButton with text
"I am not a bot" and request_contact=True, one_time_keyboard=True,
resize_keyboard=True. -/
def verificationKeyboard : ReplyKeyboardMarkup :=
  { keyboard := [[{ text := "I am not a bot", request_contact := true }]],
    one_time_keyboard := true,
    resize_keyboard := true }

/-- The private verification prompt sent by handle_join_request. -/
def verificationMessageText (chatTitle : String) : String :=
  "Welcome! To complete your request to join \x27" ++ chatTitle ++
    "\x27 and verify you are not a bot, " ++
    "please tap the button below to share your phone number.\n\n" ++
    "This helps us ensure a real person is joining. Your phone number " ++
    "will only be used for verification purposes. Telegram will ask for your confirmation."

/-- Reply sent when the shared contact is valid and the join request was approved. -/
def approvedReply (groupName : String) : String :=
  "Thank you for verifying! Your request to join \x27" ++ groupName ++
    "\x27 has been approved. " ++
    "You are all set! You can now access the group."

/-- Reply sent when the contact was valid but the approve call raised. -/
def approvalFailedReply (groupName : String) : String :=
  "Verification successful, but I encountered an issue approving your request to join \x27" ++
    groupName ++ "\x27. " ++
    "Please contact a group administrator" ++ ". Apologies for the inconvenience."

/-- Reply sent when a valid own contact arrives but no pending join request exists. -/
def noPendingReply : String :=
  "Thanks for sharing your contact! It seems you\x27re not currently awaiting verification " ++
    "for a group join request through this bot. If you were trying to join a group, " ++
    "please try sending the join request again to the group."

/-- Reply sent when the contact is missing or owned by a different user. -/
def invalidContactReply : String :=
  "It seems like the contact shared was not valid or not your own. " ++
    "Please tap the \x27I am not a bot\x27 button again if it\x27s still there."

/-- Replace every occurrence of one character by a replacement character list,
embedding a single-character Python str.replace. -/
def replaceChar (old : Char) (new : List Char) : List Char → List Char
  | [] => []
  | c :: cs => (if c = old then new else [c]) ++ replaceChar old new cs

/-- Run a chain of single-character replacements, each prefixing the character
with one backslash, in the given order. -/
def escapeChain (chars : List Char) (s : List Char) : List Char :=
  chars.foldl (fun acc c => replaceChar c ['\\', c] acc) s

/-- The escaping chain applied to the group name in handle_contact_shared
(lines 139-144 of src/telegram_flask_verification_bot.py): the replace
calls run in source order, with the dot replaced twice.  The backslash
itself and the closing square bracket are never replaced. -/
def escapeMarkdownGroupName (s : String) : String :=
  String.mk (escapeChain
    ['_', '*', '[', '\x60', '.', '!', '(', ')', '-', '~', '>',
     '#', '+', '=', '|', '\x7b', '\x7d', '.'] s.data)

/-- The escaping applied to user.full_name (line 145 of the source): only
the underscore and the asterisk are replaced. -/
def escapeFullNameMd (s : String) : String :=
  String.mk (escapeChain ['_', '*'] s.data)

/-- Python truthiness of the username field: the username string when present
and nonempty, otherwise the literal N/A placeholder. -/
def usernameDisplay : Option String → String
  | some s => if s = "" then "N/A" else s
  | none => "N/A"

/-- The admin notification text built in handle_contact_shared (lines 147-155):
the group name and the full name are interpolated after their respective
escaping passes, the username is interpolated unescaped, and a
tg deep link to the user profile closes the message. -/
def adminNotification (groupName : String) (user : UserProfile) (phoneNumber : String) : String :=
  "âœ… \\*\\*" ++ "New User Verified and Joined" ++ "\\!\\*\\*\n" ++
    "\\*\\*Group:\\*\\* " ++ escapeMarkdownGroupName groupName ++ "\n" ++
    "\\*\\*User ID:\\*\\* \x60" ++ toString user.id ++ "\x60\n" ++
    "\\*\\*Name:\\*\\* " ++ escapeFullNameMd user.full_name ++ "\n" ++
    "\\*\\*Username:\\*\\* " ++ "@" ++ usernameDisplay user.username ++ "\n" ++
    "\\*\\*Phone:\\*\\* \x60" ++ phoneNumber ++ "\x60\n" ++
    "[View User Profile](" ++ "tg://user?id=" ++ toString user.id ++ ")"

/-- Result of handle_join_request: the updated table and the messages that
were actually delivered to the requesting user. -/
structure JoinOutcome where
  table : PendingTable
  userMessages : List String
deriving DecidableEq, Repr

/-- Embedding of handle_join_request: record the request keyed by the user id
(overwriting any prior entry), then send the verification prompt; when the
send raises, delete the just-recorded entry again (guarded by a membership
test, as in the source) and deliver nothing. -/
def handle_join_request (t : PendingTable) (req : ChatJoinRequest) (sendOk : Bool) :
    JoinOutcome :=
  let user := req.from_user
  let t1 := dictSet t user.id req
  if sendOk then
    { table := t1, userMessages := [verificationMessageText req.chat.title] }
  else
    { table := if dictContainsKey t1 user.id then dictDel t1 user.id else t1,
      userMessages := [] }

/-- Result of handle_contact_shared: the updated table, the reply text and its
markup, the join request on which approve was called (when any), and the
admin notification handed to the send call (when any). -/
structure ContactOutcome where
  table : PendingTable
  reply : String
  replyMarkup : Markup
  approveAttempted : Option ChatJoinRequest
  adminMessage : Option String
deriving DecidableEq, Repr

/-- Embedding of handle_contact_shared.  The contact must exist and be owned
by the sender; then a pending join request is popped and approved.  The
approveOk parameter says whether the approve call succeeds, and
adminChatConfigured whether ADMIN_CHAT_ID is set. -/
def handle_contact_shared (t : PendingTable) (user : UserProfile) (contact : Option Contact)
    (approveOk : Bool) (adminChatConfigured : Bool) : ContactOutcome :=
  match contact with
  | some c =>
    if c.user_id = user.id then
      match dictGetOpt t user.id with
      | some req =>
        let t1 := dictDel t user.id
        if approveOk then
          { table := t1,
            reply := approvedReply req.chat.title,
            replyMarkup := Markup.removeKeyboard,
            approveAttempted := some req,
            adminMessage :=
              if adminChatConfigured then
                some (adminNotification req.chat.title user c.phone_number)
              else none }
        else
          { table := t1,
            reply := approvalFailedReply req.chat.title,
            replyMarkup := Markup.removeKeyboard,
            approveAttempted := some req,
            adminMessage := none }
      | none =>
        { table := t,
          reply := noPendingReply,
          replyMarkup := Markup.removeKeyboard,
          approveAttempted := none,
          adminMessage := none }
    else
      { table := t,
        reply := invalidContactReply,
        replyMarkup := Markup.keyboard verificationKeyboard,
        approveAttempted := none,
        adminMessage := none }
  | none =>
    { table := t,
      reply := invalidContactReply,
      replyMarkup := Markup.keyboard verificationKeyboard,
      approveAttempted := none,
      adminMessage := none }

/-- Outcome of processing the posted update inside the try block of the
webhook route: the dispatch is accepted, or json.loads raises
JSONDecodeError, or some other exception escapes. -/
inductive UpdateProcessing where
  | success
  | jsonDecodeError
  | otherException (message : String)
deriving DecidableEq, Repr

/-- JSON body returned by the webhook route via jsonify: a status field and
an optional message field. -/
structure JsonBody where
  status : String
  message : Option String
deriving DecidableEq, Repr

/-- Result of one POST to the webhook route: HTTP status code, JSON body,
whether the update was put on the dispatch queue, and the pending table
after the call. -/
structure WebhookResult where
  httpStatus : Nat
  body : JsonBody
  dispatched : Bool
  table : PendingTable
deriving DecidableEq, Repr

/-- Embedding of the POST branch of the webhook route
(lines 272-290 of src/telegram_flask_verification_bot.py): a 503 guard
when the application is uninitialized, 200 with status ok on success,
400 on JSONDecodeError, 500 with the exception text otherwise.  The route
itself never reads or writes the pending table. -/
def webhook (appInitialized : Bool) (proc : UpdateProcessing) (t : PendingTable) :
    WebhookResult :=
  if appInitialized then
    match proc with
    | UpdateProcessing.success =>
        { httpStatus := 200, body := { status := "ok", message := none },
          dispatched := true, table := t }
    | UpdateProcessing.jsonDecodeError =>
        { httpStatus := 400, body := { status := "error", message := some "Invalid JSON payload" },
          dispatched := false, table := t }
    | UpdateProcessing.otherException m =>
        { httpStatus := 500, body := { status := "error", message := some m },
          dispatched := false, table := t }
  else
    { httpStatus := 503, body := { status := "error", message := some "Bot not ready" },
      dispatched := false, table := t }

/-- The GET root route: a fixed 200 with a constant text body. -/
def root_route : Nat × String :=
  (200, "Telegram Bot Webhook Listener is Live and Operational!")

/-- Python truthiness of an optional environment string: present and nonempty. -/
def truthyStr : Option String → Bool
  | none => false
  | some s => s != ""

/-- Resolution of WEBHOOK_URL in src/set_webhook.py (lines 23-26): a truthy
RENDER_EXTERNAL_HOSTNAME h resolves to https with h and the webhook path
appended; otherwise the WEBHOOK_URL environment variable, which may be
absent. -/
def resolveWebhookUrl (renderHostname : Option String) (envWebhookUrl : Option String) :
    Option String :=
  match renderHostname with
  | some h => if h = "" then envWebhookUrl else some ("https://" ++ h ++ "/webhook")
  | none => envWebhookUrl

/-- An outbound call made by the registration utility:
bot.set_webhook with an empty url (clearing), or bot.set_webhook with a
target url and allowed_updates covering all update types. -/
inductive BotApiCall where
  | setWebhookClear
  | setWebhookUrl (url : String)
deriving DecidableEq, Repr

/-- Trace of one run of the registration utility: the outbound calls made,
in order, and whether an error was logged. -/
structure RegisterRun where
  calls : List BotApiCall
  errorLogged : Bool
deriving DecidableEq, Repr

/-- Embedding of set_telegram_webhook in src/set_webhook.py.  A missing or
empty token, or an unresolved webhook url, logs an error and returns
before any outbound call.  Otherwise the clearing call is issued; the
second set_webhook call at line 55 references TelegramUpdateType, but
the import of that name at line 6 is commented out, so evaluating its argument raises
NameError before the call is issued, and the surrounding except block
logs the failure.  The registration call for the resolved url is
therefore never made. -/
def set_telegram_webhook (botToken : Option String) (webhookUrl : Option String) :
    RegisterRun :=
  if truthyStr botToken = false then
    { calls := [], errorLogged := true }
  else if truthyStr webhookUrl = false then
    { calls := [], errorLogged := true }
  else
    { calls := [BotApiCall.setWebhookClear], errorLogged := true }

/-- Boolean test that the second list is a prefix of the first. -/
def listStarts : List Char → List Char → Bool
  | _, [] => true
  | [], _ :: _ => false
  | h :: hs, n :: ns => h == n && listStarts hs ns

/-- Boolean substring test on character lists: the needle occurs
contiguously somewhere in the haystack. -/
def hasSubList : List Char → List Char → Bool
  | [], needle => needle.isEmpty
  | c :: hs, needle => listStarts (c :: hs) needle || hasSubList hs needle

/-- Boolean substring test on strings. -/
def strHasSub (hay needle : String) : Bool :=
  hasSubList hay.data needle.data

/-- Concrete chat fixture used to instantiate theorems with hypotheses. -/
def chat0 : Chat := { id := 100, title := "Test Group" }

/-- Second concrete chat fixture. -/
def chat1 : Chat := { id := 200, title := "Other Group" }

/-- Concrete user fixture with id 7 and no username. -/
def user0 : UserProfile :=
  { id := 7, first_name := "Alice", last_name := none, username := none }

/-- Concrete join request fixture from user0 to chat0. -/
def req0 : ChatJoinRequest := { from_user := user0, chat := chat0 }

/-- Second concrete join request fixture from user0, to chat1. -/
def req1 : ChatJoinRequest := { from_user := user0, chat := chat1 }

theorem listStarts_append_self (n b : List Char) : listStarts (n ++ b) n = true := by
  induction n with
  | nil => cases b <;> rfl
  | cons c cs ih => simp [listStarts, ih]

theorem hasSubList_extendL (a r n : List Char) (h : hasSubList r n = true) :
    hasSubList (a ++ r) n = true := by
  induction a with
  | nil => simpa using h
  | cons c cs ih => simp [hasSubList, ih]

theorem hasSubList_startHere (n b : List Char) : hasSubList (n ++ b) n = true := by
  cases n with
  | nil =>
    cases b with
    | nil => rfl
    | cons c cs => simp [hasSubList, listStarts]
  | cons c cs =>
    have h := listStarts_append_self (c :: cs) b
    rw [List.cons_append] at h
    simp [hasSubList, h]

theorem mem_keys_dictSet (t : PendingTable) (k a : Nat) (v : ChatJoinRequest) :
    a ∈ (dictSet t k v).map Prod.fst ↔ a ∈ t.map Prod.fst ∨ a = k := by
  induction t with
  | nil => simp [dictSet]
  | cons p rest ih =>
    by_cases hp : p.1 = k
    · simp [dictSet, hp]
      tauto
    · simp [dictSet, hp, ih]
      tauto

theorem keysNodup_dictSet (t : PendingTable) (k : Nat) (v : ChatJoinRequest)
    (h : KeysNodup t) : KeysNodup (dictSet t k v) := by
  induction t with
  | nil => simp [dictSet, KeysNodup]
  | cons p rest ih =>
    unfold KeysNodup at h ⊢
    rw [List.map_cons, List.nodup_cons] at h
    obtain ⟨hne, hnd⟩ := h
    by_cases hp : p.1 = k
    · simp only [dictSet, hp, if_pos, List.map_cons, List.nodup_cons]
      exact ⟨hp ▸ hne, hnd⟩
    · simp only [dictSet, hp, if_neg, ite_false, List.map_cons, List.nodup_cons]
      refine ⟨?_, ih hnd⟩
      intro hmem
      rcases (mem_keys_dictSet rest k p.1 v).mp hmem with h1 | h2
      · exact hne h1
      · exact hp h2

theorem dictGetOpt_dictSet_self (t : PendingTable) (k : Nat) (v : ChatJoinRequest) :
    dictGetOpt (dictSet t k v) k = some v := by
  induction t with
  | nil => simp [dictSet, dictGetOpt]
  | cons p rest ih =>
    by_cases hp : p.1 = k
    · simp [dictSet, hp, dictGetOpt]
    · simp [dictSet, hp, dictGetOpt, ih]

theorem dictGetOpt_eq_none_of_not_mem (t : PendingTable) (k : Nat)
    (h : k ∉ t.map Prod.fst) : dictGetOpt t k = none := by
  induction t with
  | nil => rfl
  | cons p rest ih =>
    rw [List.map_cons, List.mem_cons] at h
    push_neg at h
    simp [dictGetOpt, Ne.symm h.1, ih h.2]

theorem dictDel_sublist (t : PendingTable) (k : Nat) :
    List.Sublist (dictDel t k) t := by
  induction t with
  | nil => simp [dictDel]
  | cons p rest ih =>
    by_cases hp : p.1 = k
    · simp [dictDel, hp, List.sublist_cons_self]
    · simp only [dictDel, hp, if_false, ite_false]
      exact List.Sublist.cons₂ p ih

theorem keysNodup_dictDel (t : PendingTable) (k : Nat) (h : KeysNodup t) :
    KeysNodup (dictDel t k) := by
  unfold KeysNodup at h ⊢
  exact h.sublist ((dictDel_sublist t k).map Prod.fst)

theorem dictGetOpt_dictDel_self (t : PendingTable) (k : Nat) (h : KeysNodup t) :
    dictGetOpt (dictDel t k) k = none := by
  induction t with
  | nil => rfl
  | cons p rest ih =>
    unfold KeysNodup at h
    rw [List.map_cons, List.nodup_cons] at h
    obtain ⟨hne, hnd⟩ := h
    by_cases hp : p.1 = k
    · have hkm : k ∉ rest.map Prod.fst := hp ▸ hne
      simp [dictDel, hp, dictGetOpt_eq_none_of_not_mem rest k hkm]
    · simp [dictDel, hp, dictGetOpt, ih hnd]

theorem countKey_dictSet_self (t : PendingTable) (k : Nat) (v : ChatJoinRequest)
    (h : KeysNodup t) : countKey (dictSet t k v) k = 1 := by
  induction t with
  | nil => simp [dictSet, countKey]
  | cons p rest ih =>
    unfold KeysNodup at h
    rw [List.map_cons, List.nodup_cons] at h
    obtain ⟨hne, hnd⟩ := h
    by_cases hp : p.1 = k
    · have hkm : k ∉ rest.map Prod.fst := hp ▸ hne
      simp [dictSet, hp, countKey, List.count_cons, List.count_eq_zero.mpr hkm]
    · simp [dictSet, hp, countKey, List.count_cons, Ne.symm hp] at ih ⊢
      exact ih hnd

/-- Any run of handle_contact_shared leaves the table unchanged or removes
the entry of the sending user. -/
theorem contact_table_cases (t : PendingTable) (u : UserProfile) (c : Option Contact)
    (a ad : Bool) :
    (handle_contact_shared t u c a ad).table = t ∨
    (handle_contact_shared t u c a ad).table = dictDel t u.id := by
  unfold handle_contact_shared
  cases c with
  | none => left; rfl
  | some c =>
    by_cases h : c.user_id = u.id
    · cases hg : dictGetOpt t u.id with
      | none => simp [h, hg]
      | some req => cases a <;> simp [h, hg]
    · simp [h]

/-- Claim C1: the spec asks that every character of the MarkdownV2 set be
preceded by exactly one backslash and that input backslashes be doubled
first.  The escaping chain in the source diverges: the dot comes out
preceded by two backslashes (it is replaced twice in the chain), the
closing square bracket and the backslash itself are never escaped, the
display-name pass touches only underscore and asterisk, and the username
is interpolated into the notification without any escaping. -/
theorem C1_escaping_divergence :
    escapeMarkdownGroupName "." = "\\\\." ∧
    escapeMarkdownGroupName "]" = "]" ∧
    escapeMarkdownGroupName "\\" = "\\" ∧
    escapeFullNameMd "a.b" = "a.b" ∧
    strHasSub
      (adminNotification "G"
        { id := 1, first_name := "A", last_name := none, username := some "u_v" }
        "+1") "@u_v" = true := by
  decide

/-- Claim C2: after a self-owned contact share successfully resolves the
pending join request of a user, a second self-owned contact share from
the same user is answered with the no-pending-request reply, attempts no
second approval, and leaves the table unchanged; the recorded request is
consumed exactly once. -/
theorem C2_consume_once (t : PendingTable) (u : UserProfile) (phone phone2 : String)
    (req : ChatJoinRequest) (admin1 admin2 approveOk2 : Bool)
    (hk : KeysNodup t) (hp : dictGetOpt t u.id = some req) :
    (handle_contact_shared t u (some { phone_number := phone, user_id := u.id })
        true admin1).approveAttempted = some req ∧
    dictGetOpt (handle_contact_shared t u (some { phone_number := phone, user_id := u.id })
        true admin1).table u.id = none ∧
    (handle_contact_shared
        (handle_contact_shared t u (some { phone_number := phone, user_id := u.id })
          true admin1).table
        u (some { phone_number := phone2, user_id := u.id }) approveOk2 admin2).reply
      = noPendingReply ∧
    (handle_contact_shared
        (handle_contact_shared t u (some { phone_number := phone, user_id := u.id })
          true admin1).table
        u (some { phone_number := phone2, user_id := u.id }) approveOk2 admin2).approveAttempted
      = none ∧
    (handle_contact_shared
        (handle_contact_shared t u (some { phone_number := phone, user_id := u.id })
          true admin1).table
        u (some { phone_number := phone2, user_id := u.id }) approveOk2 admin2).table
      = (handle_contact_shared t u (some { phone_number := phone, user_id := u.id })
          true admin1).table := by
  have hnone : dictGetOpt (dictDel t u.id) u.id = none :=
    dictGetOpt_dictDel_self t u.id hk
  refine ⟨?_, ?_, ?_, ?_, ?_⟩ <;> simp [handle_contact_shared, hp, hnone]

/-- Witness for C2 at a concrete state with one pending request. -/
theorem C2_consume_once_witness :
    (handle_contact_shared
        (handle_contact_shared [(7, req0)] user0
          (some { phone_number := "+15551234567", user_id := 7 }) true true).table
        user0 (some { phone_number := "+15551234567", user_id := 7 }) true true).reply
      = noPendingReply := by
  have h := C2_consume_once [(7, req0)] user0 "+15551234567" "+15551234567" req0
    true true true (by decide) (by decide)
  exact h.2.2.1

/-- Claim C3: the pending table keeps at most one entry per user id: two
join-request events from the same user before resolution leave exactly
one entry, holding the second request; the key-distinctness invariant is
preserved by the join-request handler, the contact handler, and the
webhook route (which never touches the table). -/
theorem C3_at_most_one_pending (t : PendingTable) (hk : KeysNodup t) :
    (∀ r1 r2 : ChatJoinRequest, r1.from_user.id = r2.from_user.id →
      countKey (handle_join_request (handle_join_request t r1 true).table r2 true).table
          r2.from_user.id = 1 ∧
      dictGetOpt (handle_join_request (handle_join_request t r1 true).table r2 true).table
          r2.from_user.id = some r2) ∧
    (∀ (r : ChatJoinRequest) (sendOk : Bool),
      KeysNodup (handle_join_request t r sendOk).table) ∧
    (∀ (u : UserProfile) (c : Option Contact) (a ad : Bool),
      KeysNodup (handle_contact_shared t u c a ad).table) ∧
    (∀ (i : Bool) (pr : UpdateProcessing), (webhook i pr t).table = t) := by
  refine ⟨?_, ?_, ?_, ?_⟩
  · intro r1 r2 _hid
    have hk1 : KeysNodup (dictSet t r1.from_user.id r1) :=
      keysNodup_dictSet t r1.from_user.id r1 hk
    constructor
    · simp only [handle_join_request, if_pos]
      exact countKey_dictSet_self _ _ _ hk1
    · simp only [handle_join_request, if_pos]
      exact dictGetOpt_dictSet_self _ _ _
  · intro r sendOk
    cases sendOk with
    | true =>
      simp only [handle_join_request, if_pos]
      exact keysNodup_dictSet t r.from_user.id r hk
    | false =>
      have hc : dictContainsKey (dictSet t r.from_user.id r) r.from_user.id = true := by
        simp [dictContainsKey, dictGetOpt_dictSet_self]
      simp only [handle_join_request, Bool.false_eq_true, if_false, ite_false, hc, if_pos,
        ite_true]
      exact keysNodup_dictDel _ _ (keysNodup_dictSet t r.from_user.id r hk)
  · intro u c a ad
    rcases contact_table_cases t u c a ad with h | h <;> rw [h]
    · exact hk
    · exact keysNodup_dictDel t u.id hk
  · intro i pr
    cases i <;> cases pr <;> rfl

/-- Witness for C3 at the empty table with two concrete join requests from
the same user. -/
theorem C3_at_most_one_pending_witness :
    countKey (handle_join_request (handle_join_request [] req0 true).table req1 true).table
      7 = 1 := by
  have h := C3_at_most_one_pending [] (by decide)
  exact (h.1 req0 req1 rfl).1

/-- Claim C4: when the verification prompt cannot be delivered, the
join-request handler rolls back the just-recorded pending entry and
delivers no user-facing message, and a subsequent self-owned contact
share from that user is answered as the no-pending-request case. -/
theorem C4_rollback_on_send_failure (t : PendingTable) (r : ChatJoinRequest)
    (phone : String) (a ad : Bool) (hk : KeysNodup t) :
    (handle_join_request t r false).userMessages = [] ∧
    dictGetOpt (handle_join_request t r false).table r.from_user.id = none ∧
    (handle_contact_shared (handle_join_request t r false).table r.from_user
        (some { phone_number := phone, user_id := r.from_user.id }) a ad).reply
      = noPendingReply ∧
    (handle_contact_shared (handle_join_request t r false).table r.from_user
        (some { phone_number := phone, user_id := r.from_user.id }) a ad).approveAttempted
      = none := by
  have hc : dictContainsKey (dictSet t r.from_user.id r) r.from_user.id = true := by
    simp [dictContainsKey, dictGetOpt_dictSet_self]
  have htab : (handle_join_request t r false).table
      = dictDel (dictSet t r.from_user.id r) r.from_user.id := by
    simp [handle_join_request, hc]
  have hnone : dictGetOpt (handle_join_request t r false).table r.from_user.id = none := by
    rw [htab]
    exact dictGetOpt_dictDel_self _ _ (keysNodup_dictSet t r.from_user.id r hk)
  refine ⟨by simp [handle_join_request], hnone, ?_, ?_⟩ <;>
    simp [handle_contact_shared, hnone]

/-- Witness for C4 at the empty table with a concrete join request. -/
theorem C4_rollback_on_send_failure_witness :
    dictGetOpt (handle_join_request [] req0 false).table 7 = none := by
  have h := C4_rollback_on_send_failure [] req0 "+15551234567" true true (by decide)
  exact h.2.1

/-- Claim C5: a contact share whose contact belongs to a different user is
rejected with the re-prompt message and the single-button verification
keyboard, no approval is attempted, the table is unchanged and no admin
notification is sent, whether or not a pending request exists. -/
theorem C5_foreign_contact_rejected (t : PendingTable) (u : UserProfile) (c : Contact)
    (a ad : Bool) (h : c.user_id ≠ u.id) :
    handle_contact_shared t u (some c) a ad =
      { table := t, reply := invalidContactReply,
        replyMarkup := Markup.keyboard verificationKeyboard,
        approveAttempted := none, adminMessage := none } := by
  simp [handle_contact_shared, h]

/-- Witness for C5 with a pending request for the sender and a foreign contact. -/
theorem C5_foreign_contact_rejected_witness :
    handle_contact_shared [(7, req0)] user0
        (some { phone_number := "+15551234567", user_id := 8 }) true true =
      { table := [(7, req0)], reply := invalidContactReply,
        replyMarkup := Markup.keyboard verificationKeyboard,
        approveAttempted := none, adminMessage := none } :=
  C5_foreign_contact_rejected [(7, req0)] user0
    { phone_number := "+15551234567", user_id := 8 } true true (by decide)

/-- Claim C6: when a valid self-owned contact share finds a pending request
but the approve call fails, the handler replies with the
approval-failed message, which tells the user to contact a group
administrator, attempts the approval exactly on the stored request, does
not restore the consumed entry, and sends no admin notification. -/
theorem C6_approval_failure_consumed (t : PendingTable) (u : UserProfile) (phone : String)
    (req : ChatJoinRequest) (ad : Bool) (hk : KeysNodup t)
    (hp : dictGetOpt t u.id = some req) :
    (handle_contact_shared t u (some { phone_number := phone, user_id := u.id })
        false ad).reply = approvalFailedReply req.chat.title ∧
    strHasSub (approvalFailedReply req.chat.title) "Please contact a group administrator"
      = true ∧
    (handle_contact_shared t u (some { phone_number := phone, user_id := u.id })
        false ad).approveAttempted = some req ∧
    dictGetOpt (handle_contact_shared t u (some { phone_number := phone, user_id := u.id })
        false ad).table u.id = none ∧
    (handle_contact_shared t u (some { phone_number := phone, user_id := u.id })
        false ad).adminMessage = none := by
  have hnone : dictGetOpt (dictDel t u.id) u.id = none :=
    dictGetOpt_dictDel_self t u.id hk
  refine ⟨?_, ?_, ?_, ?_, ?_⟩
  · simp [handle_contact_shared, hp]
  · unfold strHasSub
    simp only [approvalFailedReply, String.data_append, List.append_assoc]
    iterate 3 apply hasSubList_extendL
    exact hasSubList_startHere _ _
  · simp [handle_contact_shared, hp]
  · simp [handle_contact_shared, hp, hnone]
  · simp [handle_contact_shared, hp]

/-- Witness for C6 at a concrete state with one pending request. -/
theorem C6_approval_failure_consumed_witness :
    (handle_contact_shared [(7, req0)] user0
        (some { phone_number := "+15551234567", user_id := 7 }) false true).reply
      = approvalFailedReply "Test Group" := by
  have h := C6_approval_failure_consumed [(7, req0)] user0 "+15551234567" req0 true
    (by decide) (by decide)
  exact h.1

/-- Claim C7: a POST to the webhook route returns 503 with a JSON error when
the application is uninitialized, 400 with a JSON error on malformed
JSON without dispatching, 200 with status ok when dispatch is accepted,
and 500 with a JSON error on any other processing exception; in every
case the pending table is left untouched. -/
theorem C7_webhook_route (t : PendingTable) (proc : UpdateProcessing) (m : String) :
    webhook false proc t =
      { httpStatus := 503, body := { status := "error", message := some "Bot not ready" },
        dispatched := false, table := t } ∧
    webhook true UpdateProcessing.jsonDecodeError t =
      { httpStatus := 400,
        body := { status := "error", message := some "Invalid JSON payload" },
        dispatched := false, table := t } ∧
    webhook true UpdateProcessing.success t =
      { httpStatus := 200, body := { status := "ok", message := none },
        dispatched := true, table := t } ∧
    webhook true (UpdateProcessing.otherException m) t =
      { httpStatus := 500, body := { status := "error", message := some m },
        dispatched := false, table := t } := by
  refine ⟨?_, rfl, rfl, rfl⟩
  cases proc <;> rfl

/-- Counterexample for C8: the admin notification built for a user without a
username does not contain the placeholder claimed by the spec (the
source interpolates the literal N/A instead), and for a group name with
an underscore the raw group name does not occur in the notification
(only its escaped form does). -/
theorem C8_placeholder_counterexample :
    strHasSub
      (adminNotification "Test Group"
        { id := 42, first_name := "Alice", last_name := none, username := none }
        "+15551234567") "not set" = false ∧
    strHasSub
      (adminNotification "x_y"
        { id := 42, first_name := "Alice", last_name := none, username := some "al" }
        "+15551234567") "x_y" = false := by
  decide

/-- Claim C8 as amended: for every successful verification with an admin
channel configured, the notification contains the success banner, the
escaped group name, the user id, the escaped display name, an at sign
followed by the username or by the literal placeholder N/A when the
username is absent, the shared phone number, and the tg deep link to the
user profile. -/
theorem C8_admin_notification_contents (g : String) (u : UserProfile) (p : String) :
    strHasSub (adminNotification g u p) "New User Verified and Joined" = true ∧
    strHasSub (adminNotification g u p) (escapeMarkdownGroupName g) = true ∧
    strHasSub (adminNotification g u p) (toString u.id) = true ∧
    strHasSub (adminNotification g u p) (escapeFullNameMd u.full_name) = true ∧
    strHasSub (adminNotification g u p) ("@" ++ usernameDisplay u.username) = true ∧
    strHasSub (adminNotification g u p) p = true ∧
    strHasSub (adminNotification g u p) ("tg://user?id=" ++ toString u.id) = true := by
  refine ⟨?_, ?_, ?_, ?_, ?_, ?_, ?_⟩ <;>
    unfold strHasSub <;>
    simp only [adminNotification, String.data_append, List.append_assoc]
  · iterate 1 apply hasSubList_extendL
    exact hasSubList_startHere _ _
  · iterate 4 apply hasSubList_extendL
    exact hasSubList_startHere _ _
  · iterate 7 apply hasSubList_extendL
    exact hasSubList_startHere _ _
  · iterate 10 apply hasSubList_extendL
    exact hasSubList_startHere _ _
  · iterate 13 apply hasSubList_extendL
    rw [← List.append_assoc]
    exact hasSubList_startHere _ _
  · iterate 17 apply hasSubList_extendL
    exact hasSubList_startHere _ _
  · iterate 20 apply hasSubList_extendL
    rw [← List.append_assoc]
    exact hasSubList_startHere _ _

/-- Claim C9: the registration utility is claimed to make two calls, the
clearing call and then the registration of the resolved url.  On the
code the second call is never made: line 55 of src/set_webhook.py
references TelegramUpdateType, whose import is commented out at line 6,
so a NameError is raised after the clearing call and the run ends with
only the clearing call issued and the failure logged. -/
theorem C9_registration_divergence :
    set_telegram_webhook (some "123:ABC") (some "https://example.com/webhook") =
      { calls := [BotApiCall.setWebhookClear], errorLogged := true } := by
  decide

/-- Claim C10: a truthy hostname resolves the callback url to https with the
hostname and the webhook path; with no hostname the explicitly
configured url is used as is; with neither token nor url the utility
logs an error and makes no outbound call. -/
theorem C10_url_resolution (h : String) (e : Option String) (u : String) (hh : h ≠ "") :
    resolveWebhookUrl (some h) e = some ("https://" ++ h ++ "/webhook") ∧
    resolveWebhookUrl none (some u) = some u ∧
    set_telegram_webhook none none = { calls := [], errorLogged := true } := by
  refine ⟨?_, rfl, rfl⟩
  simp [resolveWebhookUrl, hh]

/-- Witness for C10 at the concrete hostname used by the spec. -/
theorem C10_url_resolution_witness :
    resolveWebhookUrl (some "example.com") none
      = some ("https://" ++ "example.com" ++ "/webhook") := by
  have h := C10_url_resolution "example.com" none "http://x/y" (by decide)
  exact h.1

end TeleVerify
